import Mathlib

/-!
Shallow embedding of the CUDA adapter memory object model
(`sycl/plugins/unified_runtime/ur/adapters/cuda/memory.hpp`), covering the
`ur_buffer_` data model: construction, host mapping (`mapToPtr` / `unmap`),
storage teardown (`clear`), writer tracking (`setLastEventWritingToMemObj`),
reference counting, and the sub-buffer parent ownership protocol.

Pointers are modelled with provenance: an address is either null, an offset
into the externally supplied host region, or an offset into a staging
allocation produced by `malloc` inside `mapToPtr`.  Driver calls
(`cuMemFree`, `cuMemHostUnregister`, `cuMemFreeHost`) are modelled by an
environment that maps each call to the result code the driver would return;
retain/release calls on the parent buffer and on events are recorded as an
explicit effect trace.
-/

/-- A pointer value with provenance: `null`, a byte offset into the
externally supplied host memory region backing the buffer (`HostPtr + off`),
or a byte offset into the `id`-th staging allocation made by `malloc`. -/
inductive Addr where
  | null : Addr
  | host (base : Nat) (off : Nat) : Addr
  | staging (id : Nat) (off : Nat) : Addr
deriving DecidableEq, Repr

/-- Pointer arithmetic `static_cast<char ->(p) + n`.  The code only offsets
non-null pointers; offsetting `null` is left as `null`. -/
def Addr.add : Addr → Nat → Addr
  | .null, _ => .null
  | .host b o, n => .host b (o + n)
  | .staging i o, n => .staging i (o + n)

/-- Model of `ur_event_handle_t_` as used by `memory.hpp`: an identity and
the index of the device the event originates from
(`NewEvent->getDevice()->getIndex()`). -/
structure ur_event_handle_t_ where
  id : Nat
  deviceIndex : Nat
deriving DecidableEq, Repr

/-- Retain/release effects emitted by `ur_buffer_` on its collaborators:
`urMemRetain(Parent)` / `urMemRelease(Parent)` and
`urEventRetain` / `urEventRelease` on the tracked last-writer event. -/
inductive Effect where
  | retainParent : Effect
  | releaseParent : Effect
  | retainEvent (e : ur_event_handle_t_) : Effect
  | releaseEvent (e : ur_event_handle_t_) : Effect
deriving DecidableEq, Repr

/-- `ur_buffer_::AllocMode` from memory.hpp. -/
inductive AllocMode where
  | Classic
  | UseHostPtr
  | CopyIn
  | AllocHostPtr
deriving DecidableEq, Repr

/-- `UR_RESULT_SUCCESS` (result codes are modelled as `Nat`, `0` meaning
success, any other value a driver error code). -/
def UR_RESULT_SUCCESS : Nat := 0

/-- `UR_MAP_FLAG_WRITE`, the write-access map flag bit from the UR API
headers (a fixed non-zero bit value); `MapFlags` is initialized to it by the
`ur_buffer_` constructor. -/
def UR_MAP_FLAG_WRITE : Nat := 2

/-- State of `ur_buffer_` (including the `ur_mem_handle_t_` base-class
reference count), with `Context->NumDevices` inlined as `NumDevices`.
Native device pointers (`CUdeviceptr`) are `Nat`, `0` being the null
handle, exactly as `native_type\x7b0\x7d` in the source. -/
structure ur_buffer_ where
  NumDevices : Nat
  RefCount : Nat
  MemFlags : Nat
  Parent : Option Nat
  Ptrs : List Nat
  HaveMigratedToDeviceSinceLastWrite : List Bool
  HostPtr : Addr
  Size : Nat
  MapSize : Nat
  MapOffset : Nat
  MapPtr : Addr
  MapFlags : Nat
  LastEventWritingToMemObj : Option ur_event_handle_t_
  MemAllocMode : AllocMode
  SubBufferOrigin : Nat
deriving DecidableEq, Repr

/-- `ur_buffer_::isSubBuffer`: `Parent != nullptr`. -/
def ur_buffer_.isSubBuffer (b : ur_buffer_) : Bool := b.Parent.isSome

/-- The `ur_buffer_` constructor: `Ptrs(Context->NumDevices, native_type\x7b0\x7d)`,
`HaveMigratedToDeviceSinceLastWrite(Context->NumDevices, false)`, map state
zeroed with `MapFlags\x7bUR_MAP_FLAG_WRITE\x7d`, `RefCount\x7b1\x7d`, and
`if (isSubBuffer()) urMemRetain(Parent)`.  Returns the constructed buffer
together with the retain effects the constructor performs on the parent. -/
def mkBuffer (NumDevices : Nat) (Parent : Option Nat) (MemFlags : Nat)
    (Mode : AllocMode) (HostPtr : Addr) (Size : Nat) :
    ur_buffer_ × List Effect :=
  let b : ur_buffer_ :=
    { NumDevices := NumDevices
      RefCount := 1
      MemFlags := MemFlags
      Parent := Parent
      Ptrs := List.replicate NumDevices 0
      HaveMigratedToDeviceSinceLastWrite := List.replicate NumDevices false
      HostPtr := HostPtr
      Size := Size
      MapSize := 0
      MapOffset := 0
      MapPtr := Addr.null
      MapFlags := UR_MAP_FLAG_WRITE
      LastEventWritingToMemObj := none
      MemAllocMode := Mode
      SubBufferOrigin := 0 }
  (b, if b.isSubBuffer then [Effect.retainParent] else [])

/-- `~ur_buffer_()`: `if (isSubBuffer()) urMemRelease(Parent);` then
`if (LastEventWritingToMemObj != nullptr) urEventRelease(...)`.  Returns the
effect trace of the destructor body. -/
def destructorEffects (b : ur_buffer_) : List Effect :=
  (if b.isSubBuffer then [Effect.releaseParent] else []) ++
  (match b.LastEventWritingToMemObj with
   | some e => [Effect.releaseEvent e]
   | none => [])

/-- The state of the host `malloc` allocator: the list of sizes of the
staging allocations made so far (the next allocation gets id
`allocs.length`). -/
structure MallocState where
  allocs : List Nat
deriving DecidableEq, Repr

/-- `ur_buffer_::mapToPtr(Size, Offset, Flags)`.  The `assert(MapPtr ==
nullptr)` precondition is modelled by returning `none` when a mapping is
already active.  Otherwise the map state is set from the arguments and
either the host pointer is aliased at `HostPtr + Offset` (when `HostPtr` is
non-null) or a fresh staging allocation of `getSize()` bytes is made.
Returns the pointer handed back to the caller, the updated buffer, and the
updated allocator state. -/
def mapToPtr (b : ur_buffer_) (m : MallocState)
    (Size Offset Flags : Nat) : Option (Addr × ur_buffer_ × MallocState) :=
  if b.MapPtr ≠ Addr.null then none
  else
    let b1 := { b with MapSize := Size, MapOffset := Offset,
                       MapFlags := Flags }
    if b.HostPtr ≠ Addr.null then
      let p := b.HostPtr.add Offset
      some (p, { b1 with MapPtr := p }, m)
    else
      let p := Addr.staging m.allocs.length 0
      some (p, { b1 with MapPtr := p }, ⟨m.allocs ++ [b.Size]⟩)

/-- `ur_buffer_::unmap(void ->)`.  The `assert(MapPtr != nullptr)`
precondition is modelled by returning `none` when no mapping is active.
`if (MapPtr != HostPtr) free(MapPtr);` then `MapSize`, `MapPtr`,
`MapOffset` are cleared (`MapFlags` is not touched).  Returns the updated
buffer and the pointer passed to `free`, if any. -/
def unmap (b : ur_buffer_) : Option (ur_buffer_ × Option Addr) :=
  if b.MapPtr = Addr.null then none
  else
    let freed := if b.MapPtr ≠ b.HostPtr then some b.MapPtr else none
    some ({ b with MapSize := 0, MapPtr := Addr.null, MapOffset := 0 },
          freed)

/-- Results the device driver returns to the teardown calls made by
`clear()`: `cuMemFree` on device slot `i`, `cuMemHostUnregister(HostPtr)`
and `cuMemFreeHost(HostPtr)` (each `Nat` is a UR result code, `0` =
success). -/
structure DriverEnv where
  cuMemFree : Nat → Nat
  cuMemHostUnregister : Nat
  cuMemFreeHost : Nat

/-- `ur_buffer_::clear()`.  Sub-buffers return `UR_RESULT_SUCCESS` at once.
Otherwise Classic/CopyIn loop over every device slot `i <
getContext()->NumDevices` and, when the slot is non-null, overwrite
`Result` with the outcome of `cuMemFree(Ptrs[i])`; UseHostPtr calls
`cuMemHostUnregister`, AllocHostPtr calls `cuMemFreeHost`.  Returns the
final `Result` together with the list of device slots on which `cuMemFree`
was invoked, in call order. -/
def clear (b : ur_buffer_) (env : DriverEnv) : Nat × List Nat :=
  if b.isSubBuffer then (UR_RESULT_SUCCESS, [])
  else
    match b.MemAllocMode with
    | .CopyIn | .Classic =>
        (List.range b.NumDevices).foldl
          (fun acc i =>
            if b.Ptrs.getD i 0 ≠ 0 then (env.cuMemFree i, acc.2 ++ [i])
            else acc)
          (UR_RESULT_SUCCESS, [])
    | .UseHostPtr => (env.cuMemHostUnregister, [])
    | .AllocHostPtr => (env.cuMemFreeHost, [])

/-- `ur_buffer_::setLastEventWritingToMemObj(NewEvent)`: release the
previously tracked event if present, retain the new event, store it, then
loop over `i < Context->NumDevices` setting
`HaveMigratedToDeviceSinceLastWrite[i]` to whether `i` is the writing
device's index.  Returns the updated buffer and the retain/release effect
trace in call order. -/
def setLastEventWritingToMemObj (b : ur_buffer_)
    (NewEvent : ur_event_handle_t_) : ur_buffer_ × List Effect :=
  let relFx : List Effect :=
    match b.LastEventWritingToMemObj with
    | some old => [Effect.releaseEvent old]
    | none => []
  let flags :=
    (List.range b.NumDevices).foldl
      (fun l i => l.set i (decide (i = NewEvent.deviceIndex)))
      b.HaveMigratedToDeviceSinceLastWrite
  ({ b with LastEventWritingToMemObj := some NewEvent,
            HaveMigratedToDeviceSinceLastWrite := flags },
   relFx ++ [Effect.retainEvent NewEvent])

/-- `ur_mem_handle_t_::incrementReferenceCount`: `++RefCount` on a
`std::atomic_uint32_t`, returning the new value (modulo `2 ^ 32`). -/
def incrementReferenceCount (b : ur_buffer_) : ur_buffer_ × Nat :=
  let r := (b.RefCount + 1) % 2 ^ 32
  ({ b with RefCount := r }, r)

/-- `ur_mem_handle_t_::decrementReferenceCount`: `--RefCount` on a
`std::atomic_uint32_t`, returning the new value (unsigned wrap-around
modulo `2 ^ 32`). -/
def decrementReferenceCount (b : ur_buffer_) : ur_buffer_ × Nat :=
  let r := (b.RefCount + (2 ^ 32 - 1)) % 2 ^ 32
  ({ b with RefCount := r }, r)

/-! ## Helper lemmas -/

/-- The flag-writing loop of `setLastEventWritingToMemObj` preserves the
length of the flag vector. -/
theorem foldl_set_length (f : Nat → Bool) :
    ∀ (n : Nat) (l : List Bool),
      ((List.range n).foldl (fun l i => l.set i (f i)) l).length = l.length := by
  intro n
  induction n with
  | zero => intro l; rfl
  | succ n ih =>
    intro l
    rw [List.range_succ, List.foldl_append, List.foldl_cons, List.foldl_nil,
      List.length_set, ih]

/-- After the flag-writing loop over device indices `0..n-1`, every index
`j < n` that is in bounds holds the written value `f j`. -/
theorem foldl_set_get (f : Nat → Bool) :
    ∀ (n : Nat) (l : List Bool) (j : Nat), j < n → j < l.length →
      ((List.range n).foldl (fun l i => l.set i (f i)) l).get? j
        = some (f j) := by
  intro n
  induction n with
  | zero => intro l j hj _; omega
  | succ n ih =>
    intro l j hj hl
    rw [List.range_succ, List.foldl_append, List.foldl_cons, List.foldl_nil]
    by_cases hjn : j = n
    · subst hjn
      have hlen : j < ((List.range j).foldl
          (fun l i => l.set i (f i)) l).length := by
        rw [foldl_set_length]; exact hl
      rw [List.get?_set_eq_of_lt _ hlen]
    · have hj' : j < n := by omega
      rw [List.get?_set_ne _ _ (fun h => hjn h.symm)]
      exact ih l j hj' hl

/-- The teardown fold of `clear` over any index list: every index
satisfying the slot predicate is appended to the call list, and the result
code is the driver result of the last such index (the initial result when
there is none). -/
theorem clear_foldl_spec (free : Nat → Nat) (p : Nat → Bool) :
    ∀ (l : List Nat) (r0 : Nat) (c0 : List Nat),
      (l.foldl (fun acc i => if p i then (free i, acc.2 ++ [i]) else acc)
          (r0, c0))
        = (((l.filter p).getLast?).elim r0 free, c0 ++ l.filter p) := by
  intro l
  induction l with
  | nil => intro r0 c0; simp
  | cons a t ih =>
    intro r0 c0
    rw [List.foldl_cons]
    by_cases hp : p a
    · rw [if_pos hp, ih]
      cases hft : t.filter p with
      | nil => simp [List.filter_cons, hp, hft]
      | cons x xs =>
          have hy := List.getLast?_eq_getLast_of_ne_nil
            (List.cons_ne_nil x xs)
          simp [List.filter_cons, hp, hft, List.getLast?_cons_cons, hy]
    · rw [if_neg hp, ih]
      simp [List.filter_cons, hp]

/-! ## Concrete sample states used by witnesses and counterexamples -/

/-- A generic driver environment whose every call succeeds. -/
def env0 : DriverEnv := ⟨fun _ => 0, 0, 0⟩

/-- A 2-device UseHostPtr buffer backed by the host pointer at base 100. -/
def bC1 : ur_buffer_ :=
  (mkBuffer 2 none 0 AllocMode.UseHostPtr (Addr.host 100 0) 1024).1

/-- A fresh 3-device Classic buffer with no host pointer. -/
def bC2 : ur_buffer_ := (mkBuffer 3 none 0 AllocMode.Classic Addr.null 64).1

/-- A 2-device Classic buffer whose two device slots hold live native
allocations (handles 5 and 6). -/
def bC3 : ur_buffer_ :=
  { (mkBuffer 2 none 0 AllocMode.Classic Addr.null 64).1 with Ptrs := [5, 6] }

/-- A driver environment whose cuMemFree fails with code 7 on device slot 0
and succeeds on every other slot. -/
def envC3 : DriverEnv := ⟨fun i => if i = 0 then 7 else 0, 0, 0⟩

/-! ## C1 -/

/-- C1: the claim fails on the code, which contradicts its own stated
intent (release the staging allocation, never an aliased host pointer).
At the failing input — a UseHostPtr buffer backed by host pointer H,
mapped with `mapToPtr(size=256, offset=16, flags=1)` and then unmapped —
`unmap` passes `H + 16` to `free`: since `MapPtr = HostPtr + 16` differs
from `HostPtr`, the guard `MapPtr != HostPtr` misclassifies the aliased
interior pointer as a staging allocation and frees host memory. -/
theorem C1_unmap_frees_aliased_host_ptr_at_offset :
    ((mapToPtr bC1 ⟨[]⟩ 256 16 1).bind fun r =>
        (unmap r.2.1).map Prod.snd)
      = some (some (Addr.host 100 16)) := by decide

/-! ## C2 -/

/-- C2: after `setLastEventWritingToMemObj(E)` on a buffer whose flag
vector spans the context's `NumDevices` devices and where `E` originates
from a device of the context, the per-device "migrated since last write"
flag is true at `E`'s device index and false at every other index below
`NumDevices`. -/
theorem C2_setLastWriter_flags (b : ur_buffer_) (E : ur_event_handle_t_)
    (hlen : b.HaveMigratedToDeviceSinceLastWrite.length = b.NumDevices)
    (hw : E.deviceIndex < b.NumDevices) :
    (setLastEventWritingToMemObj b
        E).1.HaveMigratedToDeviceSinceLastWrite.get? E.deviceIndex
      = some true ∧
    ∀ j, j < b.NumDevices → j ≠ E.deviceIndex →
      (setLastEventWritingToMemObj b
          E).1.HaveMigratedToDeviceSinceLastWrite.get? j = some false := by
  constructor
  · have h := foldl_set_get (fun i => decide (i = E.deviceIndex))
      b.NumDevices b.HaveMigratedToDeviceSinceLastWrite E.deviceIndex hw
      (by omega)
    simpa [setLastEventWritingToMemObj] using h
  · intro j hj hne
    have h := foldl_set_get (fun i => decide (i = E.deviceIndex))
      b.NumDevices b.HaveMigratedToDeviceSinceLastWrite j hj (by omega)
    simp only [decide_eq_true_eq] at h
    rw [decide_eq_false hne] at h
    simpa [setLastEventWritingToMemObj] using h

/-- Witness for C2 at a concrete input: a fresh 3-device buffer and an
event originating from device 1. -/
theorem C2_setLastWriter_flags_witness :
    (bC2.HaveMigratedToDeviceSinceLastWrite.length = bC2.NumDevices ∧
     (ur_event_handle_t_.mk 7 1).deviceIndex < bC2.NumDevices) ∧
    ((setLastEventWritingToMemObj bC2
        (ur_event_handle_t_.mk 7 1)).1.HaveMigratedToDeviceSinceLastWrite.get?
          (ur_event_handle_t_.mk 7 1).deviceIndex = some true ∧
     ∀ j, j < bC2.NumDevices → j ≠ (ur_event_handle_t_.mk 7 1).deviceIndex →
       (setLastEventWritingToMemObj bC2
          (ur_event_handle_t_.mk 7 1)).1.HaveMigratedToDeviceSinceLastWrite.get?
            j = some false) :=
  ⟨⟨by decide, by decide⟩,
   C2_setLastWriter_flags bC2 (ur_event_handle_t_.mk 7 1) (by decide)
     (by decide)⟩

/-! ## C3 -/

/-- Counterexample to C3 as stated: on a 2-device Classic buffer with both
slots allocated, with cuMemFree failing (code 7) on slot 0 and succeeding
on slot 1, clear attempts both frees but returns UR_RESULT_SUCCESS — not
the last failure encountered (7). -/
theorem C3_counterexample_last_failure_discarded :
    clear bC3 envC3 = (UR_RESULT_SUCCESS, [0, 1]) ∧
    envC3.cuMemFree 0 = 7 ∧ envC3.cuMemFree 1 = UR_RESULT_SUCCESS ∧
    (clear bC3 envC3).1 ≠ 7 := by decide

/-- The device slots on which clear attempts cuMemFree: every slot below
NumDevices holding a non-null native allocation, in index order. -/
def clearAttempted (b : ur_buffer_) : List Nat :=
  (List.range b.NumDevices).filter fun i => decide (b.Ptrs.getD i 0 ≠ 0)

/-- C3 amended: for every non-sub-buffer in Classic or CopyIn mode, clear
attempts cuMemFree on exactly the non-empty device slots, in index order
and regardless of earlier driver failures, and returns the driver result
of the LAST free attempted (success when no slot is allocated); the
results of all earlier frees — failures included — are discarded. -/
theorem C3_clear_attempts_all_returns_last_result (b : ur_buffer_)
    (env : DriverEnv) (hsub : b.Parent = none)
    (hmode : b.MemAllocMode = AllocMode.Classic ∨
      b.MemAllocMode = AllocMode.CopyIn) :
    clear b env
      = ((clearAttempted b).getLast?.elim UR_RESULT_SUCCESS env.cuMemFree,
         clearAttempted b) ∧
    ∀ i, i < b.NumDevices → b.Ptrs.getD i 0 ≠ 0 → i ∈ clearAttempted b := by
  constructor
  · have hspec := clear_foldl_spec env.cuMemFree
      (fun i => b.Ptrs.getD i 0 ≠ 0) (List.range b.NumDevices)
      UR_RESULT_SUCCESS []
    have hns : b.isSubBuffer = false := by
      simp [ur_buffer_.isSubBuffer, hsub]
    rcases hmode with h | h <;>
      simpa [clear, hns, h, clearAttempted] using hspec
  · intro i hi hne
    simpa [clearAttempted, List.mem_filter, List.mem_range, hi,
      List.getD] using hne

/-- Witness for C3 at the concrete buffer and driver environment of the
counterexample. -/
theorem C3_clear_attempts_all_returns_last_result_witness :
    (bC3.Parent = none ∧
     (bC3.MemAllocMode = AllocMode.Classic ∨
       bC3.MemAllocMode = AllocMode.CopyIn)) ∧
    (clear bC3 envC3
       = ((clearAttempted bC3).getLast?.elim UR_RESULT_SUCCESS
            envC3.cuMemFree,
          clearAttempted bC3) ∧
     ∀ i, i < bC3.NumDevices → bC3.Ptrs.getD i 0 ≠ 0 →
       i ∈ clearAttempted bC3) :=
  ⟨⟨by decide, Or.inl (by decide)⟩,
   C3_clear_attempts_all_returns_last_result bC3 envC3 (by decide)
     (Or.inl (by decide))⟩

/-! ## C4 -/

/-- C4: for every sub-buffer (non-null Parent): the constructor performs
exactly one urMemRetain on the parent, clear is a no-op returning success
that invokes no cuMemFree, and the destructor performs exactly one
urMemRelease on the parent. -/
theorem C4_subbuffer_ownership (n p mf : Nat) (mode : AllocMode)
    (hp : Addr) (sz : Nat) (b : ur_buffer_) (env : DriverEnv)
    (hb : b.Parent.isSome = true) :
    (mkBuffer n (some p) mf mode hp sz).2.count Effect.retainParent = 1 ∧
    clear b env = (UR_RESULT_SUCCESS, []) ∧
    (destructorEffects b).count Effect.releaseParent = 1 := by
  refine ⟨by simp [mkBuffer, ur_buffer_.isSubBuffer], ?_, ?_⟩
  · simp [clear, ur_buffer_.isSubBuffer, hb]
  · cases hE : b.LastEventWritingToMemObj <;>
      simp [destructorEffects, ur_buffer_.isSubBuffer, hb, hE,
        List.count_cons]

/-- Witness for C4: a concrete 2-device sub-buffer whose parent handle
is 3, against the all-success driver environment. -/
theorem C4_subbuffer_ownership_witness :
    ((mkBuffer 2 (some 3) 0 AllocMode.Classic Addr.null 16).1.Parent.isSome
        = true) ∧
    ((mkBuffer 2 (some 3) 0 AllocMode.Classic Addr.null 16).2.count
        Effect.retainParent = 1 ∧
     clear (mkBuffer 2 (some 3) 0 AllocMode.Classic Addr.null 16).1 env0
        = (UR_RESULT_SUCCESS, []) ∧
     (destructorEffects
         (mkBuffer 2 (some 3) 0 AllocMode.Classic Addr.null 16).1).count
        Effect.releaseParent = 1) :=
  ⟨by decide,
   C4_subbuffer_ownership 2 3 0 AllocMode.Classic Addr.null 16
     (mkBuffer 2 (some 3) 0 AllocMode.Classic Addr.null 16).1 env0
     (by decide)⟩

/-! ## C5 -/

/-- A fresh single-device Classic buffer with no host pointer. -/
def bC5 : ur_buffer_ := (mkBuffer 1 none 0 AllocMode.Classic Addr.null 32).1

/-- bC5 with an active mapping of 8 bytes at offset 0 with flags 1, as
produced by `mapToPtr bC5 8 0 1` (staging pointer id 0). -/
def bC5m : ur_buffer_ :=
  { bC5 with MapPtr := Addr.staging 0 0, MapSize := 8, MapFlags := 1 }

/-- Counterexample to C5 as stated: unmap clears pointer, size and offset
but not the access-mode flags.  Mapping bC5 with flags 1 and unmapping
leaves a buffer with no active mapping (MapPtr null) whose MapFlags is
still 1, not unset; moreover immediately after construction MapFlags is
already UR_MAP_FLAG_WRITE, a non-zero flag value. -/
theorem C5_counterexample_flags_not_cleared :
    ((mapToPtr bC5 ⟨[]⟩ 8 0 1).bind fun r =>
        (unmap r.2.1).map fun s => (s.1.MapPtr, s.1.MapFlags))
      = some (Addr.null, 1) ∧ (1 : Nat) ≠ 0 ∧
    bC5.MapFlags = UR_MAP_FLAG_WRITE ∧ UR_MAP_FLAG_WRITE ≠ 0 := by decide

/-- C5 amended: whenever no mapping is active — immediately after
construction and immediately after every unmap — the map pointer, size and
offset are unset (null and 0); the access-mode flags field is NOT cleared:
the constructor initializes it to UR_MAP_FLAG_WRITE and unmap leaves the
last mapping's flags in place. -/
theorem C5_map_state_unset_except_flags (n : Nat) (P : Option Nat)
    (mf : Nat) (mode : AllocMode) (hp : Addr) (sz : Nat)
    (b b' : ur_buffer_) (fr : Option Addr)
    (hun : unmap b = some (b', fr)) :
    ((mkBuffer n P mf mode hp sz).1.MapPtr = Addr.null ∧
     (mkBuffer n P mf mode hp sz).1.MapSize = 0 ∧
     (mkBuffer n P mf mode hp sz).1.MapOffset = 0 ∧
     (mkBuffer n P mf mode hp sz).1.MapFlags = UR_MAP_FLAG_WRITE) ∧
    (b'.MapPtr = Addr.null ∧ b'.MapSize = 0 ∧ b'.MapOffset = 0 ∧
     b'.MapFlags = b.MapFlags) := by
  refine ⟨⟨rfl, rfl, rfl, rfl⟩, ?_⟩
  unfold unmap at hun
  by_cases h : b.MapPtr = Addr.null
  · rw [if_pos h] at hun; exact absurd hun (by simp)
  · rw [if_neg h] at hun
    injection hun with h2
    have hb' : { b with MapSize := 0, MapPtr := Addr.null, MapOffset := 0 } = b' :=
      congrArg Prod.fst h2
    rw [← hb']
    exact ⟨rfl, rfl, rfl, rfl⟩

/-- The buffer state left behind by unmapping bC5m. -/
def bC5u : ur_buffer_ :=
  { bC5m with MapSize := 0, MapPtr := Addr.null, MapOffset := 0 }

/-- Witness for C5 at the concrete mapped buffer bC5m, whose unmap
succeeds and frees the staging pointer. -/
theorem C5_map_state_unset_except_flags_witness :
    (unmap bC5m = some (bC5u, some (Addr.staging 0 0))) ∧
    (((mkBuffer 1 none 0 AllocMode.Classic Addr.null 32).1.MapPtr
          = Addr.null ∧
      (mkBuffer 1 none 0 AllocMode.Classic Addr.null 32).1.MapSize = 0 ∧
      (mkBuffer 1 none 0 AllocMode.Classic Addr.null 32).1.MapOffset = 0 ∧
      (mkBuffer 1 none 0 AllocMode.Classic Addr.null 32).1.MapFlags
          = UR_MAP_FLAG_WRITE) ∧
     (bC5u.MapPtr = Addr.null ∧ bC5u.MapSize = 0 ∧ bC5u.MapOffset = 0 ∧
      bC5u.MapFlags = bC5m.MapFlags)) :=
  ⟨by decide,
   C5_map_state_unset_except_flags 1 none 0 AllocMode.Classic Addr.null 32
     bC5m bC5u (some (Addr.staging 0 0)) (by decide)⟩

/-! ## C6 -/

/-- C6: on a buffer with no active mapping, mapToPtr in UseHostPtr mode
backed by host pointer H (base h, offset 0) returns exactly H + Offset and
leaves the staging allocator untouched; on a buffer with no backing host
pointer it makes one fresh staging allocation of the full Size bytes and
returns the pointer to its start. -/
theorem C6_mapToPtr_alias_vs_staging (b : ur_buffer_) (m : MallocState)
    (sz off fl h : Nat) (hmap : b.MapPtr = Addr.null) :
    (b.MemAllocMode = AllocMode.UseHostPtr → b.HostPtr = Addr.host h 0 →
      mapToPtr b m sz off fl
        = some (Addr.host h off,
            { b with MapSize := sz, MapOffset := off, MapFlags := fl,
                     MapPtr := Addr.host h off },
            m)) ∧
    (b.HostPtr = Addr.null →
      mapToPtr b m sz off fl
        = some (Addr.staging m.allocs.length 0,
            { b with MapSize := sz, MapOffset := off, MapFlags := fl,
                     MapPtr := Addr.staging m.allocs.length 0 },
            ⟨m.allocs ++ [b.Size]⟩)) := by
  constructor
  · intro _ hh
    simp [mapToPtr, hmap, hh, Addr.add]
  · intro hh
    simp [mapToPtr, hmap, hh]

/-- A 2-device UseHostPtr buffer backed by host base pointer 100, used by
the C6 witness. -/
def bC6 : ur_buffer_ :=
  (mkBuffer 2 none 0 AllocMode.UseHostPtr (Addr.host 100 0) 1024).1

/-- Witness for C6: mapping bC6 (host pointer base 100) with size 256 at
offset 16 returns host address 100+16 with no staging allocation. -/
theorem C6_mapToPtr_alias_vs_staging_witness :
    bC6.MapPtr = Addr.null ∧
    ((bC6.MemAllocMode = AllocMode.UseHostPtr →
        bC6.HostPtr = Addr.host 100 0 →
        mapToPtr bC6 ⟨[]⟩ 256 16 1
          = some (Addr.host 100 16,
              { bC6 with MapSize := 256, MapOffset := 16, MapFlags := 1,
                         MapPtr := Addr.host 100 16 },
              ⟨[]⟩)) ∧
     (bC6.HostPtr = Addr.null →
        mapToPtr bC6 ⟨[]⟩ 256 16 1
          = some (Addr.staging (MallocState.mk []).allocs.length 0,
              { bC6 with MapSize := 256, MapOffset := 16, MapFlags := 1,
                         MapPtr := Addr.staging
                           (MallocState.mk []).allocs.length 0 },
              ⟨(MallocState.mk []).allocs ++ [bC6.Size]⟩))) :=
  ⟨by decide,
   C6_mapToPtr_alias_vs_staging bC6 ⟨[]⟩ 256 16 1 100 (by decide)⟩

/-! ## C9 -/

/-- C9: the alias-versus-staging decision of mapToPtr depends only on the
host pointer being non-null, not on the allocation-mode tag: for every
mode (CopyIn included) a buffer with a non-null backing host pointer is
aliased at HostPtr + Offset with no staging allocation. -/
theorem C9_alias_decision_ignores_alloc_mode (b : ur_buffer_)
    (m : MallocState) (sz off fl : Nat) (mode : AllocMode)
    (hmap : b.MapPtr = Addr.null) (hhost : b.HostPtr ≠ Addr.null) :
    mapToPtr { b with MemAllocMode := mode } m sz off fl
      = some (b.HostPtr.add off,
          { b with MemAllocMode := mode, MapSize := sz, MapOffset := off,
                   MapFlags := fl, MapPtr := b.HostPtr.add off },
          m) := by
  simp [mapToPtr, hmap, hhost]

/-- A 2-device buffer backed by host base pointer 50 (its mode tag is
overridden to CopyIn in the C9 witness). -/
def bC9 : ur_buffer_ :=
  (mkBuffer 2 none 0 AllocMode.Classic (Addr.host 50 0) 512).1

/-- Witness for C9: a CopyIn-tagged buffer with non-null host pointer is
aliased at host address 50+16 and performs no staging allocation. -/
theorem C9_alias_decision_ignores_alloc_mode_witness :
    bC9.MapPtr = Addr.null ∧ bC9.HostPtr ≠ Addr.null ∧
    mapToPtr { bC9 with MemAllocMode := AllocMode.CopyIn } ⟨[]⟩ 256 16 1
      = some (bC9.HostPtr.add 16,
          { bC9 with MemAllocMode := AllocMode.CopyIn, MapSize := 256,
                     MapOffset := 16, MapFlags := 1,
                     MapPtr := bC9.HostPtr.add 16 },
          ⟨[]⟩) :=
  ⟨by decide, by decide,
   C9_alias_decision_ignores_alloc_mode bC9 ⟨[]⟩ 256 16 1 AllocMode.CopyIn
     (by decide) (by decide)⟩

/-! ## C7 -/

/-- The map / unmap / map round trip: mapToPtr over the first region, then
unmap, then mapToPtr over the second region, threading the buffer and the
staging allocator state. -/
def mapUnmapMap (b : ur_buffer_) (m : MallocState)
    (s1 o1 f1 s2 o2 f2 : Nat) : Option (Addr × ur_buffer_ × MallocState) :=
  (mapToPtr b m s1 o1 f1).bind fun r1 =>
    (unmap r1.2.1).bind fun r2 =>
      mapToPtr r2.1 r1.2.2 s2 o2 f2

/-- C7: for every buffer with no active mapping, mapToPtr then unmap then
mapToPtr succeeds, and the entire outcome of the second mapToPtr — the
returned pointer and the resulting map state (pointer, size, offset,
flags) — is the same whatever region the first call mapped. -/
theorem C7_map_unmap_map_roundtrip (b : ur_buffer_) (m : MallocState)
    (s1 o1 f1 s1' o1' f1' s2 o2 f2 : Nat)
    (hmap : b.MapPtr = Addr.null) :
    (mapUnmapMap b m s1 o1 f1 s2 o2 f2).isSome = true ∧
    mapUnmapMap b m s1 o1 f1 s2 o2 f2
      = mapUnmapMap b m s1' o1' f1' s2 o2 f2 := by
  cases hh : b.HostPtr with
  | null => simp [mapUnmapMap, mapToPtr, unmap, hmap, hh, Addr.add]
  | host hb ho => simp [mapUnmapMap, mapToPtr, unmap, hmap, hh, Addr.add]
  | staging si so => simp [mapUnmapMap, mapToPtr, unmap, hmap, hh, Addr.add]

/-- A fresh single-device Classic buffer with no host pointer, used by the
C7 witness. -/
def bC7 : ur_buffer_ := (mkBuffer 1 none 0 AllocMode.Classic Addr.null 32).1

/-- Witness for C7: on the concrete buffer bC7 the round trip succeeds and
its outcome with first region (8, 0, 1) equals its outcome with first
region (4, 2, 2), the second region being (16, 4, 1) in both. -/
theorem C7_map_unmap_map_roundtrip_witness :
    bC7.MapPtr = Addr.null ∧
    ((mapUnmapMap bC7 ⟨[]⟩ 8 0 1 16 4 1).isSome = true ∧
     mapUnmapMap bC7 ⟨[]⟩ 8 0 1 16 4 1
       = mapUnmapMap bC7 ⟨[]⟩ 4 2 2 16 4 1) :=
  ⟨by decide,
   C7_map_unmap_map_roundtrip bC7 ⟨[]⟩ 8 0 1 4 2 2 16 4 1 (by decide)⟩

/-! ## C8 -/

/-- Number of urEventRetain calls on event e recorded in an effect
trace. -/
def retainEventCount (fx : List Effect) (e : ur_event_handle_t_) : Nat :=
  fx.count (Effect.retainEvent e)

/-- Number of urEventRelease calls on event e recorded in an effect
trace. -/
def releaseEventCount (fx : List Effect) (e : ur_event_handle_t_) : Nat :=
  fx.count (Effect.releaseEvent e)

/-- 1 when the buffer currently tracks e as its last-writer event, else
0. -/
def heldIndicator (b : ur_buffer_) (e : ur_event_handle_t_) : Nat :=
  if b.LastEventWritingToMemObj = some e then 1 else 0

/-- Runs a sequence of setLastEventWritingToMemObj calls, concatenating
the retain/release effect traces. -/
def runWriters (b : ur_buffer_) (ops : List ur_event_handle_t_) :
    ur_buffer_ × List Effect :=
  match ops with
  | [] => (b, [])
  | e :: rest =>
      let s := setLastEventWritingToMemObj b e
      let r := runWriters s.1 rest
      (r.1, s.2 ++ r.2)

/-- Balance invariant of writer tracking: across any run of setLastWriter
calls, the retains performed on an event e, plus 1 if e was tracked at the
start, equal the releases performed on e, plus 1 if e is tracked at the
end. -/
theorem runWriters_balance (ops : List ur_event_handle_t_) :
    ∀ (b : ur_buffer_) (e : ur_event_handle_t_),
      retainEventCount (runWriters b ops).2 e + heldIndicator b e
        = releaseEventCount (runWriters b ops).2 e
          + heldIndicator (runWriters b ops).1 e := by
  induction ops with
  | nil => intro b e; simp [runWriters, retainEventCount, releaseEventCount]
  | cons e0 rest ih =>
    intro b e
    have hstep := ih (setLastEventWritingToMemObj b e0).1 e
    simp only [runWriters, retainEventCount, releaseEventCount,
      List.count_append] at hstep ⊢
    have hfx : (setLastEventWritingToMemObj b e0).2.count
          (Effect.retainEvent e)
        + heldIndicator b e
        = (setLastEventWritingToMemObj b e0).2.count
            (Effect.releaseEvent e)
          + heldIndicator (setLastEventWritingToMemObj b e0).1 e := by
      cases hold : b.LastEventWritingToMemObj with
      | none =>
          by_cases he : e0 = e <;>
            simp [setLastEventWritingToMemObj, heldIndicator, hold, he,
              List.count_cons, List.count_nil]
      | some old =>
          by_cases he : e0 = e <;> by_cases holde : old = e <;>
            simp [setLastEventWritingToMemObj, heldIndicator, hold, he,
              holde, List.count_cons, List.count_nil]
    omega

/-- C8: at most one last-writer event is tracked at a time, in the
balance sense: starting from a freshly constructed buffer and running any
sequence of setLastEventWritingToMemObj calls, the retains of each event e
exceed its releases exactly by 1 when e is the currently tracked event and
by 0 otherwise (so only the single stored event has an outstanding
retain), and appending the destructor effects releases the tracked event,
balancing every event exactly. -/
theorem C8_writer_event_refcount_balance (nd : Nat) (P : Option Nat)
    (mf : Nat) (mode : AllocMode) (hp : Addr) (sz : Nat)
    (ops : List ur_event_handle_t_) (e : ur_event_handle_t_) :
    retainEventCount (runWriters (mkBuffer nd P mf mode hp sz).1 ops).2 e
      = releaseEventCount (runWriters (mkBuffer nd P mf mode hp sz).1
            ops).2 e
        + heldIndicator (runWriters (mkBuffer nd P mf mode hp sz).1 ops).1
            e ∧
    retainEventCount ((runWriters (mkBuffer nd P mf mode hp sz).1 ops).2
          ++ destructorEffects
               (runWriters (mkBuffer nd P mf mode hp sz).1 ops).1) e
      = releaseEventCount ((runWriters (mkBuffer nd P mf mode hp sz).1
            ops).2
          ++ destructorEffects
               (runWriters (mkBuffer nd P mf mode hp sz).1 ops).1) e := by
  have hbal := runWriters_balance ops (mkBuffer nd P mf mode hp sz).1 e
  have h0 : heldIndicator (mkBuffer nd P mf mode hp sz).1 e = 0 := by
    simp [heldIndicator, mkBuffer]
  rw [h0] at hbal
  constructor
  · omega
  · have hd : (destructorEffects
          (runWriters (mkBuffer nd P mf mode hp sz).1 ops).1).count
            (Effect.retainEvent e) = 0 ∧
        (destructorEffects
          (runWriters (mkBuffer nd P mf mode hp sz).1 ops).1).count
            (Effect.releaseEvent e)
          = heldIndicator (runWriters (mkBuffer nd P mf mode hp sz).1
              ops).1 e := by
      cases hL : (runWriters (mkBuffer nd P mf mode hp sz).1
          ops).1.LastEventWritingToMemObj with
      | none =>
          cases hS : (runWriters (mkBuffer nd P mf mode hp sz).1
              ops).1.isSubBuffer <;>
            simp [destructorEffects, heldIndicator, hL, hS,
              List.count_cons]
      | some t =>
          by_cases ht : t = e <;>
            cases hS : (runWriters (mkBuffer nd P mf mode hp sz).1
                ops).1.isSubBuffer <;>
              simp [destructorEffects, heldIndicator, hL, hS, ht,
                List.count_cons]
    simp only [retainEventCount, releaseEventCount, List.count_append]
      at hbal ⊢
    omega

/-! ## C10 -/

/-- C10: the reference count is initialized to 1 by the constructor;
incrementReferenceCount returns the incremented count and
decrementReferenceCount the decremented one; a decrement performed at
count 0 wraps around to 2^32 - 1 (unsigned 32-bit modular arithmetic, no
negative value); a decrement undoes an increment. -/
theorem C10_refcount_init_inc_dec_wrap (nd : Nat) (P : Option Nat)
    (mf : Nat) (mode : AllocMode) (hp : Addr) (sz : Nat) (b : ur_buffer_)
    (hlt : b.RefCount < 2 ^ 32) :
    (mkBuffer nd P mf mode hp sz).1.RefCount = 1 ∧
    (b.RefCount + 1 < 2 ^ 32 →
      (incrementReferenceCount b).2 = b.RefCount + 1) ∧
    (0 < b.RefCount → (decrementReferenceCount b).2 = b.RefCount - 1) ∧
    (b.RefCount = 0 → (decrementReferenceCount b).2 = 2 ^ 32 - 1) ∧
    (decrementReferenceCount (incrementReferenceCount b).1).2
      = b.RefCount := by
  have h32 : (2 : Nat) ^ 32 = 4294967296 := by norm_num
  rw [h32] at hlt
  refine ⟨rfl, fun h => ?_, fun h => ?_, fun h => ?_, ?_⟩ <;>
    simp only [incrementReferenceCount, decrementReferenceCount, h32] <;>
    omega

/-- A fresh single-device buffer, reference count 1, used by the C10
witness. -/
def bC10 : ur_buffer_ := (mkBuffer 1 none 0 AllocMode.Classic Addr.null 8).1

/-- Witness for C10 at the freshly constructed buffer bC10 (reference
count 1). -/
theorem C10_refcount_init_inc_dec_wrap_witness :
    bC10.RefCount < 2 ^ 32 ∧
    ((mkBuffer 1 none 0 AllocMode.Classic Addr.null 8).1.RefCount = 1 ∧
     (bC10.RefCount + 1 < 2 ^ 32 →
       (incrementReferenceCount bC10).2 = bC10.RefCount + 1) ∧
     (0 < bC10.RefCount →
       (decrementReferenceCount bC10).2 = bC10.RefCount - 1) ∧
     (bC10.RefCount = 0 →
       (decrementReferenceCount bC10).2 = 2 ^ 32 - 1) ∧
     (decrementReferenceCount (incrementReferenceCount bC10).1).2
       = bC10.RefCount) :=
  ⟨by norm_num [bC10, mkBuffer],
   C10_refcount_init_inc_dec_wrap 1 none 0 AllocMode.Classic Addr.null 8
     bC10 (by norm_num [bC10, mkBuffer])⟩
